import Mathlib

/-!
Verification of the multi-tenant company/staff management backend.

The Python sources are shallowly embedded: ORM rows become structures,
database tables become lists of rows, sessions become explicit state
threading, and raised HTTP exceptions become `Except` error values.
UUID identifiers are modelled as natural numbers; timestamps as integers
(seconds).  Operations that in the source mutate the session return the
post-state explicitly.
-/

namespace VosApi

/-- The coarse role enumeration from `app/models/user.py` (`class UserRole(str, enum.Enum)`).
Each member is a `str` subclass whose string value is the lowercase word. -/
inductive UserRole
  | ADMIN
  | OWNER
  | MANAGER
  | SUPERVISOR
  | STAFF
deriving DecidableEq, Repr

/-- The `str` value of a `UserRole` member (`UserRole.ADMIN = "admin"`, etc.);
Python equality of a `str`-enum member with a plain string compares this value. -/
def UserRole.value : UserRole → String
  | .ADMIN => "admin"
  | .OWNER => "owner"
  | .MANAGER => "manager"
  | .SUPERVISOR => "supervisor"
  | .STAFF => "staff"

/-- A row of the per-tenant `permission` table (`app/models/user.py`, `class Permission`). -/
structure Permission where
  id : Nat
  code : String
  name : String
  module : String
  description : Option String
  company_id : Nat
deriving DecidableEq, Repr

/-- A row of the per-tenant `role` table (`app/models/user.py`, `class Role`),
with its many-to-many `permissions` relationship loaded as a list. -/
structure Role where
  id : Nat
  name : String
  description : Option String
  is_system_role : Bool
  permissions : List Permission
  company_id : Nat
deriving DecidableEq, Repr

/-- A row of the per-tenant `user` table (`app/models/user.py`, `class User`).
`role_obj` is the loaded relationship to the assigned `Role` (NULL-able in
practice when the foreign row is missing, hence `Option`). -/
structure User where
  id : Nat
  email : String
  username : String
  hashed_password : String
  name : String
  surname : String
  telephone : String
  role_id : Nat
  role_obj : Option Role
  role : UserRole
  is_active : Bool
  refresh_token : Option String
  company_id : Nat
deriving DecidableEq, Repr

/-- `User.has_permission` from `app/models/user.py`: ADMIN short-circuits to
true; otherwise the check runs only when `role_obj` is truthy and its
`permissions` list is truthy (non-empty), and tests `any(p.code == code)`. -/
def User.has_permission (u : User) (permission_code : String) : Bool :=
  if u.role = UserRole.ADMIN then true
  else
    match u.role_obj with
    | some r => if !r.permissions.isEmpty then r.permissions.any (fun p => p.code == permission_code) else false
    | none => false

/-- `User.get_permissions` from `app/models/user.py`: ADMIN yields the literal
list `["all"]`; otherwise the codes of the assigned role's permissions (with
the same truthiness guards as `has_permission`), else the empty list. -/
def User.get_permissions (u : User) : List String :=
  if u.role = UserRole.ADMIN then ["all"]
  else
    match u.role_obj with
    | some r => if !r.permissions.isEmpty then r.permissions.map (fun p => p.code) else []
    | none => []

/-- The error kinds `HTTPException` is raised with across the endpoints,
tagged by status code: 401 unauthorized, 403 forbidden, 404 notFound,
400 badRequest, 500 serverError.  `typeError` stands for an unhandled Python
`TypeError` escaping the handler. -/
inductive HTTPError
  | unauthorized (detail : String)
  | forbidden (detail : String)
  | notFound (detail : String)
  | badRequest (detail : String)
  | serverError (detail : String)
  | typeError
deriving DecidableEq, Repr

/-- A dynamically-typed Python value as it occurs in the superuser check:
either a string or a list of strings (the codes of an ORM relationship list).
Python `==` between values of different types is `False`. -/
inductive PyVal
  | pstr (s : String)
  | plist (l : List String)
deriving DecidableEq, Repr

/-- Python equality on `PyVal`: equal only within the same type. -/
def pyEq : PyVal → PyVal → Bool
  | .pstr a, .pstr b => a == b
  | .plist a, .plist b => a == b
  | _, _ => false

/-- `hasattr(x, "permissions")` where `x` is `current_user.role_obj`:
false on `None`, true on any `Role` instance (the relationship attribute
always exists on the mapped class). -/
def hasattr_permissions : Option Role → Bool
  | none => false
  | some _ => true

/-- The Python value of `current_user.role_obj.permissions` (a list of ORM
`Permission` objects, rendered by their codes).  Only evaluated by the source
when `hasattr` succeeded; the `none` branch is unreachable there. -/
def role_obj_permissions_py : Option Role → PyVal
  | some r => .plist (r.permissions.map (fun p => p.code))
  | none => .plist []

/-- `check_superuser_permissions` from `app/api/v1/endpoints/companies.py`:
rejects with 403 unless `current_user.role != "ADMIN"` fails or the
`role_obj.permissions` attribute equals the string `"all"`. -/
def check_superuser_permissions (current_user : User) : Except HTTPError User :=
  if pyEq (.pstr current_user.role.value) (.pstr "ADMIN") = false ∧
      (hasattr_permissions current_user.role_obj = false ∨
        pyEq (role_obj_permissions_py current_user.role_obj) (.pstr "all") = false) then
    .error (.forbidden "Superuser privileges required for company management")
  else
    .ok current_user

/-- Claim C1 (status: code bug).  The claim says the superuser check passes
exactly the callers whose coarse role is ADMIN or whose assigned role's
permission set contains the value "all".  In the code the comparison
`current_user.role != "ADMIN"` tests the enum's string value ("admin", never
"ADMIN"), and `role_obj.permissions != "all"` compares an ORM list with a
string, which is never equal; so the check raises 403 Forbidden for every
caller, ADMIN callers included, contradicting the function's own docstring and
comment. -/
theorem check_superuser_rejects_every_user (u : User) :
    check_superuser_permissions u =
      Except.error (HTTPError.forbidden "Superuser privileges required for company management") := by
  unfold check_superuser_permissions
  cases hro : u.role_obj with
  | none =>
    cases hr : u.role <;>
      simp [pyEq, UserRole.value, hasattr_permissions, role_obj_permissions_py]
  | some r =>
    cases hr : u.role <;>
      simp [pyEq, UserRole.value, hasattr_permissions, role_obj_permissions_py]

/-- The dependency body produced by `check_user_permissions` in
`app/core/security.py` iterates the required codes in order and raises 403 at
the first one the user lacks.  This helper is that `for` loop. -/
def first_missing_permission (current_user : User) : List String → Option String
  | [] => none
  | p :: rest =>
    if current_user.has_permission p then first_missing_permission current_user rest
    else some p

/-- `validate_permissions`, the inner dependency of `check_user_permissions`
(`app/core/security.py`): ADMIN passes unconditionally; then, only when the
required list is truthy (not `None`, not empty), each code is checked in
order via `User.has_permission`, raising 403 naming the first missing one. -/
def validate_permissions (required_permissions : Option (List String)) (current_user : User) :
    Except HTTPError User :=
  if current_user.role = UserRole.ADMIN then .ok current_user
  else
    match required_permissions with
    | none => .ok current_user
    | some [] => .ok current_user
    | some (p :: rest) =>
      match first_missing_permission current_user (p :: rest) with
      | some missing => .error (.forbidden ("Not enough permissions. Missing: " ++ missing))
      | none => .ok current_user

/-- `check_user_permissions(required)` returns the dependency closure over the
captured list (`app/core/security.py`). -/
def check_user_permissions (required_permissions : Option (List String)) :
    User → Except HTTPError User :=
  validate_permissions required_permissions

/-- For a non-ADMIN user, `has_permission p` coincides with membership of `p`
in the `get_permissions()` result. -/
theorem has_permission_iff_mem_get_permissions (u : User) (p : String)
    (h : u.role ≠ UserRole.ADMIN) :
    u.has_permission p = true ↔ p ∈ u.get_permissions := by
  unfold User.has_permission User.get_permissions
  cases hro : u.role_obj with
  | none => simp [h]
  | some r =>
    by_cases he : r.permissions.isEmpty
    · simp [h, he]
    · simp only [h, if_neg h, he, Bool.not_false, if_pos rfl]
      simp [List.any_eq_true, List.mem_map]

/-- Claim C2 (confirmed).  The dependency built by `check_user_permissions`
passes an ADMIN caller regardless of the required list; a caller with any
other coarse role passes exactly when every required code is in their
`get_permissions()` result, and otherwise fails 403 Forbidden naming the
first missing code. -/
theorem check_user_permissions_spec (required : List String) (u : User) :
    (u.role = UserRole.ADMIN → check_user_permissions (some required) u = .ok u) ∧
    (u.role ≠ UserRole.ADMIN →
      match required.find? (fun p => !(u.get_permissions.contains p)) with
      | none => check_user_permissions (some required) u = .ok u
      | some missing =>
          check_user_permissions (some required) u =
            .error (.forbidden ("Not enough permissions. Missing: " ++ missing))) := by
  constructor
  · intro h
    simp [check_user_permissions, validate_permissions, h]
  · intro h
    have hfm : ∀ l : List String,
        first_missing_permission u l = l.find? (fun p => !(u.get_permissions.contains p)) := by
      intro l
      induction l with
      | nil => simp [first_missing_permission]
      | cons p rest ih =>
        by_cases hp : u.has_permission p = true
        · have hmem : p ∈ u.get_permissions := (has_permission_iff_mem_get_permissions u p h).mp hp
          simp [first_missing_permission, hp, List.find?, hmem, ih]
        · have hmem : p ∉ u.get_permissions := by
            intro hc
            exact hp ((has_permission_iff_mem_get_permissions u p h).mpr hc)
          simp [first_missing_permission, hp, List.find?, hmem]
    cases hfind : required.find? (fun p => !(u.get_permissions.contains p)) with
    | none =>
      cases required with
      | nil => simp [check_user_permissions, validate_permissions, h]
      | cons p rest =>
        simp only [check_user_permissions, validate_permissions, if_neg h]
        rw [hfm (p :: rest), hfind]
    | some missing =>
      cases required with
      | nil => simp at hfind
      | cons p rest =>
        simp only [check_user_permissions, validate_permissions, if_neg h]
        rw [hfm (p :: rest), hfind]

/-- A concrete staff user whose role grants only the code "users_read". -/
def sampleStaffRole : Role :=
  { id := 7, name := "readers", description := none, is_system_role := false,
    permissions := [{ id := 21, code := "users_read", name := "View Users",
                      module := "users", description := none, company_id := 3 }],
    company_id := 3 }

/-- A concrete non-ADMIN user for witnesses. -/
def sampleStaffUser : User :=
  { id := 11, email := "s@x.io", username := "staff1", hashed_password := "h",
    name := "Stef", surname := "Ann", telephone := "1", role_id := 7,
    role_obj := some sampleStaffRole, role := UserRole.STAFF, is_active := true,
    refresh_token := none, company_id := 3 }

/-- Witness for claim C2: at a concrete non-ADMIN user required
["users_read", "users_delete"] fails naming "users_delete". -/
theorem check_user_permissions_spec_witness :
    check_user_permissions (some ["users_read", "users_delete"]) sampleStaffUser =
      .error (.forbidden ("Not enough permissions. Missing: " ++ "users_delete")) := by
  have h := (check_user_permissions_spec ["users_read", "users_delete"] sampleStaffUser).2
    (by decide)
  simpa using h

/-- The claim set of a JSON Web Token as produced by `create_access_token` /
`create_refresh_token` (`app/core/security.py`) and consumed through
`TokenPayload` (`app/schemas/auth.py`, every field optional).  Identifier
claims are modelled as numbers. -/
structure TokenClaims where
  sub : Option Nat
  role : Option String
  exp : Option Int
  company_id : Option Nat
  refresh : Option Bool
deriving DecidableEq, Repr

/-- A bearer token on the wire: its raw string form plus the claim set the
configured secret/algorithm recovers from it (`none` when the token is
malformed or mis-signed, in which case `jwt.decode` raises). -/
structure Jwt where
  raw : String
  claims : Option TokenClaims
deriving DecidableEq, Repr

/-- The error classes of the external JWT codec that the handlers catch
(`jwt.PyJWTError`). -/
inductive JwtError
  | invalidToken
  | expiredSignature
deriving DecidableEq, Repr

/-- `jwt.decode(token, SECRET_KEY, algorithms=[ALGORITHM])`: fails on a
malformed or mis-signed token, and — per the library's documented behaviour —
on a token whose `exp` claim is not later than the current time. -/
def jwt_decode (token : Jwt) (now : Int) : Except JwtError TokenClaims :=
  match token.claims with
  | none => .error .invalidToken
  | some c =>
    match c.exp with
    | some e => if e ≤ now then .error .expiredSignature else .ok c
    | none => .ok c

/-- Request-scoped state (`request.state`): `company_id` is `none` while the
attribute was never assigned, `some v` once a handler stored the token's
(possibly absent) company claim `v`. -/
structure RequestState where
  company_id : Option (Option Nat)
deriving DecidableEq, Repr

/-- `get_current_user` from `app/core/security.py`.  Decode failures are
caught by the `except (jwt.PyJWTError, ValidationError)` clause and re-raised
as 403; the in-handler expiry test raises 401 (an `HTTPException`, which that
clause does not catch) but runs only after a successful decode; with no `exp`
claim the comparison `None < int` raises `TypeError`.  The token's
`company_id` is stored on request state before the user lookup.  Returns the
handler outcome together with the post-request state. -/
def get_current_user (token : Jwt) (now : Int) (users : List User) (st : RequestState) :
    Except HTTPError User × RequestState :=
  match jwt_decode token now with
  | .error _ => (.error (.forbidden "Could not validate credentials"), st)
  | .ok c =>
    match c.exp with
    | none => (.error .typeError, st)
    | some e =>
      if e < now then (.error (.unauthorized "Token expired"), st)
      else
        let st' : RequestState := { st with company_id := some c.company_id }
        match c.sub with
        | none => (.error (.notFound "User not found"), st')
        | some s =>
          match users.find? (fun u => u.id == s) with
          | none => (.error (.notFound "User not found"), st')
          | some u =>
            if u.is_active = false then (.error (.badRequest "Inactive user"), st')
            else (.ok u, st')

/-- Claim C4, counterexample.  A malformed bearer token (one `jwt.decode`
rejects) is answered with 403 Forbidden "Could not validate credentials", not
with a 401 Unauthenticated response as the claim states. -/
theorem get_current_user_malformed_not_unauthorized :
    (get_current_user { raw := "zzz", claims := none } 0 [] { company_id := none }).1 =
        Except.error (HTTPError.forbidden "Could not validate credentials") ∧
      ∀ d : String,
        (get_current_user { raw := "zzz", claims := none } 0 [] { company_id := none }).1 ≠
          Except.error (HTTPError.unauthorized d) := by
  constructor
  · rfl
  · intro d h
    simp [get_current_user, jwt_decode] at h

/-- Claim C4, amended.  Current-user resolution rejects a token that fails to
decode (malformed, mis-signed, or already expired — the decoder checks `exp`)
with 403 Forbidden, leaving request state untouched; a decoded token with no
`exp` claim escapes with a `TypeError`; otherwise the token's `company_id` is
recorded on request state, then a subject matching no User row yields 404
NotFound, an inactive user yields 400 ("Inactive user"), and an active user is
returned. -/
theorem get_current_user_cases (token : Jwt) (now : Int) (users : List User)
    (st : RequestState) :
    (∀ er, jwt_decode token now = .error er →
      get_current_user token now users st =
        (.error (.forbidden "Could not validate credentials"), st)) ∧
    (∀ c, jwt_decode token now = .ok c → c.exp = none →
      get_current_user token now users st = (.error .typeError, st)) ∧
    (∀ c e, jwt_decode token now = .ok c → c.exp = some e →
      (get_current_user token now users st).2 = { st with company_id := some c.company_id } ∧
      ((c.sub = none ∨ ∃ s, c.sub = some s ∧ users.find? (fun u => u.id == s) = none) →
        (get_current_user token now users st).1 = .error (.notFound "User not found")) ∧
      (∀ s u, c.sub = some s → users.find? (fun u => u.id == s) = some u →
        ((u.is_active = false →
            (get_current_user token now users st).1 = .error (.badRequest "Inactive user")) ∧
          (u.is_active = true →
            (get_current_user token now users st).1 = .ok u)))) := by
  refine ⟨?_, ?_, ?_⟩
  · intro er her
    simp [get_current_user, her]
  · intro c hc hexp
    simp [get_current_user, hc, hexp]
  · intro c e hc hexp
    have hnow : ¬ e < now := by
      unfold jwt_decode at hc
      cases htc : token.claims with
      | none => simp [htc] at hc
      | some c0 =>
        cases hce : c0.exp with
        | none =>
          simp [htc, hce] at hc
          subst hc
          rw [hce] at hexp
          cases hexp
        | some e0 =>
          by_cases hle : e0 ≤ now
          · simp [htc, hce, hle] at hc
          · simp [htc, hce, hle] at hc
            subst hc
            rw [hce] at hexp
            injection hexp with h0
            subst h0
            omega
    refine ⟨?_, ?_, ?_⟩
    · cases hsub : c.sub with
      | none => simp [get_current_user, hc, hexp, hnow, hsub]
      | some s =>
        cases hf : users.find? (fun u => u.id == s) with
        | none => simp [get_current_user, hc, hexp, hnow, hsub, hf]
        | some u =>
          by_cases ha : u.is_active = false <;>
            simp [get_current_user, hc, hexp, hnow, hsub, hf, ha]
    · rintro (hsub | ⟨s, hsub, hf⟩)
      · simp [get_current_user, hc, hexp, hnow, hsub]
      · simp [get_current_user, hc, hexp, hnow, hsub, hf]
    · intro s u hsub hf
      constructor
      · intro ha
        simp [get_current_user, hc, hexp, hnow, hsub, hf, ha]
      · intro ha
        simp [get_current_user, hc, hexp, hnow, hsub, hf, ha]

/-- Witness for the amended C4 theorem: the malformed-token conjunct at a
concrete token. -/
theorem get_current_user_cases_witness :
    get_current_user { raw := "zzz", claims := none } 0 [] { company_id := none } =
      (.error (.forbidden "Could not validate credentials"), { company_id := none }) :=
  (get_current_user_cases { raw := "zzz", claims := none } 0 [] { company_id := none }).1
    JwtError.invalidToken rfl

/-- A row of the shared-schema `user_directory` table
(`app/models/user_directory.py`). -/
structure UserDirectory where
  id : Nat
  email : String
  username : String
  company_id : Nat
  schema_name : String
deriving DecidableEq, Repr

/-- `create_access_token` from `app/core/security.py`: claims are `exp`
(now plus the configured minutes), the subject, the coarse role (string
value), and the company id. -/
def create_access_token (subject : Nat) (role : UserRole) (company_id : Nat)
    (now expireMinutes : Int) : TokenClaims :=
  { sub := some subject, role := some role.value, exp := some (now + expireMinutes * 60),
    company_id := some company_id, refresh := none }

/-- `create_refresh_token` from `app/core/security.py`: same claims plus the
`refresh: true` marker and a fixed 7-day lifetime. -/
def create_refresh_token (subject : Nat) (role : UserRole) (company_id : Nat)
    (now : Int) : TokenClaims :=
  { sub := some subject, role := some role.value, exp := some (now + 7 * 24 * 60 * 60),
    company_id := some company_id, refresh := some true }

/-- The `Token` response schema (`app/schemas/auth.py`): both issued tokens
(by their claim sets) and the fixed token type. -/
structure AuthTokens where
  access_token : TokenClaims
  refresh_token : TokenClaims
  token_type : String
deriving DecidableEq, Repr

/-- The `POST /auth/refresh` handler (`app/api/v1/endpoints/auth.py`,
`refresh_token`).  `encodeFn` stands for the opaque `jwt.encode` used to turn
the new refresh claims into the stored string.  Decode failures are caught by
the trailing `except` clause as 403; a missing `refresh` marker, subject or
`company_id` claim is 403; a `company_id` matching no `user_directory` row is
403; a subject matching no user row is 404 (`HTTPException` is not caught by
the `except`); a stored token differing from the presented raw string is 403.
On success both tokens are reissued and the new refresh string is persisted.
Returns the outcome with the post-state of the user table. -/
def refresh_endpoint (encodeFn : TokenClaims → String) (presented : Jwt) (now : Int)
    (directory : List UserDirectory) (users : List User) (expireMinutes : Int) :
    Except HTTPError AuthTokens × List User :=
  match jwt_decode presented now with
  | .error _ => (.error (.forbidden "Invalid refresh token"), users)
  | .ok payload =>
    if payload.refresh.getD false = false then
      (.error (.forbidden "Invalid refresh token"), users)
    else
      match payload.sub with
      | none => (.error (.forbidden "Invalid refresh token"), users)
      | some user_id =>
        match payload.company_id with
        | none => (.error (.forbidden "Invalid refresh token - missing company_id"), users)
        | some company_id =>
          match directory.find? (fun d => d.company_id == company_id) with
          | none => (.error (.forbidden "Invalid company information in token"), users)
          | some _user_dir =>
            match users.find? (fun u => u.id == user_id) with
            | none => (.error (.notFound "User not found"), users)
            | some user =>
              if user.refresh_token ≠ some presented.raw then
                (.error (.forbidden "Invalid refresh token"), users)
              else
                let access := create_access_token user.id user.role user.company_id now expireMinutes
                let refreshed := create_refresh_token user.id user.role user.company_id now
                let user' := { user with refresh_token := some (encodeFn refreshed) }
                (.ok { access_token := access, refresh_token := refreshed, token_type := "bearer" },
                  users.map (fun v => if v.id == user.id then user' else v))

/-- A well-formed refresh token whose subject (user 1) matches no stored user. -/
def orphanRefreshJwt : Jwt :=
  { raw := "tok-orphan",
    claims := some { sub := some 1, role := some "staff", exp := some 100,
                     company_id := some 5, refresh := some true } }

/-- A directory row resolving company 5. -/
def sampleDirectoryRow : UserDirectory :=
  { id := 2, email := "e@x.io", username := "u5", company_id := 5, schema_name := "company_acme" }

/-- Claim C3, counterexample.  A refresh token carrying the `refresh` marker
and a resolvable `company_id`, but whose subject matches no stored user, is
answered with 404 NotFound — not with 403 Forbidden as the claim states (the
user-lookup `HTTPException` is not converted by the handler's `except`
clause). -/
theorem refresh_endpoint_unknown_subject_not_forbidden :
    (refresh_endpoint (fun _ => "enc") orphanRefreshJwt 0 [sampleDirectoryRow] [] 30).1 =
        Except.error (HTTPError.notFound "User not found") ∧
      ∀ d : String,
        (refresh_endpoint (fun _ => "enc") orphanRefreshJwt 0 [sampleDirectoryRow] [] 30).1 ≠
          Except.error (HTTPError.forbidden d) := by
  constructor
  · rfl
  · intro d h
    simp [refresh_endpoint, jwt_decode, orphanRefreshJwt, sampleDirectoryRow] at h

/-- Claim C3, amended.  On every early-exit path of `POST /refresh` — decode
failure, missing `refresh` marker, missing subject or `company_id` claim,
`company_id` resolving to no directory row, and subject resolving to no user —
no tokens are issued and the stored user table (hence every stored refresh
token) is unchanged; the user-lookup failure is answered 404 NotFound, all the
other cases 403 Forbidden. -/
theorem refresh_endpoint_failure_cases (encodeFn : TokenClaims → String) (presented : Jwt)
    (now : Int) (directory : List UserDirectory) (users : List User) (expireMinutes : Int) :
    (∀ er, jwt_decode presented now = .error er →
      refresh_endpoint encodeFn presented now directory users expireMinutes =
        (.error (.forbidden "Invalid refresh token"), users)) ∧
    (∀ payload, jwt_decode presented now = .ok payload →
      (payload.refresh.getD false = false →
        refresh_endpoint encodeFn presented now directory users expireMinutes =
          (.error (.forbidden "Invalid refresh token"), users)) ∧
      (payload.refresh.getD false = true →
        (payload.sub = none →
          refresh_endpoint encodeFn presented now directory users expireMinutes =
            (.error (.forbidden "Invalid refresh token"), users)) ∧
        (∀ user_id, payload.sub = some user_id →
          (payload.company_id = none →
            refresh_endpoint encodeFn presented now directory users expireMinutes =
              (.error (.forbidden "Invalid refresh token - missing company_id"), users)) ∧
          (∀ company_id, payload.company_id = some company_id →
            (directory.find? (fun d => d.company_id == company_id) = none →
              refresh_endpoint encodeFn presented now directory users expireMinutes =
                (.error (.forbidden "Invalid company information in token"), users)) ∧
            (directory.find? (fun d => d.company_id == company_id) ≠ none →
              users.find? (fun u => u.id == user_id) = none →
              refresh_endpoint encodeFn presented now directory users expireMinutes =
                (.error (.notFound "User not found"), users)))))) := by
  constructor
  · intro er her
    simp [refresh_endpoint, her]
  · intro payload hp
    constructor
    · intro hm
      simp [refresh_endpoint, hp, hm]
    · intro hm
      constructor
      · intro hsub
        simp [refresh_endpoint, hp, hm, hsub]
      · intro user_id hsub
        constructor
        · intro hcid
          simp [refresh_endpoint, hp, hm, hsub, hcid]
        · intro company_id hcid
          constructor
          · intro hdir
            simp [refresh_endpoint, hp, hm, hsub, hcid, hdir]
          · intro hdir huser
            cases hd : directory.find? (fun d => d.company_id == company_id) with
            | none => exact absurd hd hdir
            | some dirRow =>
              simp [refresh_endpoint, hp, hm, hsub, hcid, hd, huser]

/-- Witness for the amended C3 theorem: the unknown-subject conjunct at a
concrete input (marker present, company 5 resolvable, user table empty). -/
theorem refresh_endpoint_failure_cases_witness :
    refresh_endpoint (fun _ => "enc") orphanRefreshJwt 0 [sampleDirectoryRow] [] 30 =
      (.error (.notFound "User not found"), []) := by
  have h := (refresh_endpoint_failure_cases (fun _ => "enc") orphanRefreshJwt 0
      [sampleDirectoryRow] [] 30).2
    { sub := some 1, role := some "staff", exp := some 100,
      company_id := some 5, refresh := some true } rfl
  have h2 := (((h.2 rfl).2 1 rfl).2 5 rfl).2 (by decide) rfl
  exact h2

/-- Errors raised by the CRUD layer: Python `ValueError` (translated by the
endpoints into 400 / InvalidInput responses). -/
inductive CrudError
  | invalidInput (msg : String)
deriving DecidableEq, Repr

/-- Python truthiness of an optional list argument (`if add_ids:`): `None` and
the empty list are both falsy. -/
def py_truthy_list {α : Type} : Option (List α) → Bool
  | none => false
  | some l => !l.isEmpty

/-- The `RoleUpdate` schema (`app/schemas/role.py`): only name and description
are updatable; `none` means the field was not supplied. -/
structure RoleUpdate where
  name : Option String
  description : Option String
deriving DecidableEq, Repr

/-- Modelled from the spec: the generic `CRUDBase.update` (`app/crud/base.py`
is missing from the source tree; §4.7 describes it as "apply only the fields
present in payload, commit, return the refreshed row"), specialised to the
role table. -/
def crud_base_update_role (roles : List Role) (db_obj : Role) (obj_in : RoleUpdate) :
    List Role × Role :=
  let r' : Role :=
    { db_obj with
      name := obj_in.name.getD db_obj.name,
      description := match obj_in.description with
        | some d => some d
        | none => db_obj.description }
  (roles.map (fun r => if r.id == db_obj.id then r' else r), r')

/-- `CRUDRole.update` from `app/crud/role.py`: raises `ValueError` on a system
role before touching anything, else delegates to the generic update. -/
def CRUDRole.update (roles : List Role) (db_obj : Role) (obj_in : RoleUpdate) :
    Except CrudError Role × List Role :=
  if db_obj.is_system_role then
    (.error (.invalidInput "System roles cannot be modified"), roles)
  else
    let res := crud_base_update_role roles db_obj obj_in
    (.ok res.2, res.1)

/-- The addition loop of `update_permissions`: append each resolved permission
that is not already attached, checking membership against the evolving list. -/
def attach_new (current : List Permission) : List Permission → List Permission
  | [] => current
  | p :: rest =>
    if p ∈ current then attach_new current rest
    else attach_new (current ++ [p]) rest

/-- The removal loop of `update_permissions`: Python `list.remove` drops the
first occurrence of each resolved permission that is currently attached. -/
def detach_present (current : List Permission) : List Permission → List Permission
  | [] => current
  | p :: rest =>
    if p ∈ current then detach_present (current.erase p) rest
    else detach_present current rest

/-- `CRUDRole.update_permissions` from `app/crud/role.py`: rejects system
roles; resolves each id list against the permission table filtered to the
role's own company; attaches resolved additions not already present; removes
resolved removals that are present; commits once. -/
def CRUDRole.update_permissions (roles : List Role) (perms : List Permission) (db_obj : Role)
    (add_ids remove_ids : Option (List Nat)) : Except CrudError Role × List Role :=
  if db_obj.is_system_role then
    (.error (.invalidInput "System roles cannot be modified"), roles)
  else
    let afterAdd :=
      if py_truthy_list add_ids then
        let permissions_to_add := perms.filter
          (fun p => (add_ids.getD []).contains p.id && p.company_id == db_obj.company_id)
        attach_new db_obj.permissions permissions_to_add
      else db_obj.permissions
    let afterRemove :=
      if py_truthy_list remove_ids then
        let permissions_to_remove := perms.filter
          (fun p => (remove_ids.getD []).contains p.id && p.company_id == db_obj.company_id)
        detach_present afterAdd permissions_to_remove
      else afterAdd
    let r' : Role := { db_obj with permissions := afterRemove }
    (.ok r', roles.map (fun r => if r.id == db_obj.id then r' else r))

/-- Modelled from the spec: the generic `CRUDBase.remove` (§4.7: "delete by id
if found, commit, return the removed row or none"), specialised to roles. -/
def crud_base_remove_role (roles : List Role) (id : Nat) : Option Role × List Role :=
  match roles.find? (fun r => r.id == id) with
  | none => (none, roles)
  | some r => (some r, roles.filter (fun x => !(x.id == id)))

/-- `CRUDRole.remove` from `app/crud/role.py`: fetches the role, returns
`none` when absent, raises `ValueError` on a system role, else delegates to
the generic remove. -/
def CRUDRole.remove (roles : List Role) (id : Nat) :
    Except CrudError (Option Role) × List Role :=
  match roles.find? (fun r => r.id == id) with
  | none => (.ok none, roles)
  | some role =>
    if role.is_system_role then
      (.error (.invalidInput "System roles cannot be deleted"), roles)
    else
      let res := crud_base_remove_role roles id
      (.ok res.1, res.2)

/-- Claim C5 (confirmed).  On a role flagged `is_system_role`, `update`,
`update_permissions` and `remove` each fail with a `ValueError` (surfaced as
InvalidInput / 400) and return the role table unchanged, so the role's stored
fields and attached permission set are untouched. -/
theorem system_role_mutations_rejected (roles : List Role) (perms : List Permission)
    (r : Role) (obj_in : RoleUpdate) (add_ids remove_ids : Option (List Nat)) (rid : Nat)
    (hsys : r.is_system_role = true) :
    CRUDRole.update roles r obj_in =
      (.error (.invalidInput "System roles cannot be modified"), roles) ∧
    CRUDRole.update_permissions roles perms r add_ids remove_ids =
      (.error (.invalidInput "System roles cannot be modified"), roles) ∧
    (roles.find? (fun x => x.id == rid) = some r →
      CRUDRole.remove roles rid =
        (.error (.invalidInput "System roles cannot be deleted"), roles)) := by
  refine ⟨?_, ?_, ?_⟩
  · simp [CRUDRole.update, hsys]
  · simp [CRUDRole.update_permissions, hsys]
  · intro hf
    simp [CRUDRole.remove, hf, hsys]

/-- A concrete seeded system role. -/
def sampleSystemRole : Role :=
  { id := 1, name := "ADMIN", description := none, is_system_role := true,
    permissions := [], company_id := 3 }

/-- Witness for claim C5 at the concrete system role. -/
theorem system_role_mutations_rejected_witness :
    CRUDRole.update [sampleSystemRole] sampleSystemRole { name := some "x", description := none } =
        (.error (.invalidInput "System roles cannot be modified"), [sampleSystemRole]) ∧
      CRUDRole.remove [sampleSystemRole] 1 =
        (.error (.invalidInput "System roles cannot be deleted"), [sampleSystemRole]) := by
  have h := system_role_mutations_rejected [sampleSystemRole] []
    sampleSystemRole { name := some "x", description := none } none none 1 rfl
  exact ⟨h.1, h.2.2 rfl⟩

theorem attach_new_mem (toAdd : List Permission) (current : List Permission) (p : Permission) :
    p ∈ attach_new current toAdd ↔ p ∈ current ∨ p ∈ toAdd := by
  induction toAdd generalizing current with
  | nil => simp [attach_new]
  | cons q rest ih =>
    by_cases hq : q ∈ current
    · rw [attach_new, if_pos hq, ih]
      constructor
      · rintro (h | h)
        · exact Or.inl h
        · exact Or.inr (List.mem_cons_of_mem _ h)
      · rintro (h | h)
        · exact Or.inl h
        · rcases List.mem_cons.mp h with h1 | h1
          · exact Or.inl (h1 ▸ hq)
          · exact Or.inr h1
    · rw [attach_new, if_neg hq, ih]
      simp only [List.mem_append, List.mem_singleton, List.mem_cons]
      tauto

theorem attach_new_nodup (toAdd : List Permission) (current : List Permission)
    (h : current.Nodup) : (attach_new current toAdd).Nodup := by
  induction toAdd generalizing current with
  | nil => simpa [attach_new]
  | cons q rest ih =>
    by_cases hq : q ∈ current
    · rw [attach_new, if_pos hq]
      exact ih current h
    · rw [attach_new, if_neg hq]
      refine ih (current ++ [q]) ?_
      rw [List.nodup_append]
      refine ⟨h, List.nodup_singleton q, ?_⟩
      intro a ha ha'
      simp only [List.mem_singleton] at ha'
      exact hq (ha' ▸ ha)

theorem detach_present_mem (toRem : List Permission) (current : List Permission)
    (h : current.Nodup) (p : Permission) :
    p ∈ detach_present current toRem ↔ p ∈ current ∧ p ∉ toRem := by
  induction toRem generalizing current with
  | nil => simp [detach_present]
  | cons q rest ih =>
    by_cases hq : q ∈ current
    · rw [detach_present, if_pos hq, ih (current.erase q) (h.erase q)]
      rw [h.mem_erase_iff]
      simp only [List.mem_cons]
      tauto
    · rw [detach_present, if_neg hq, ih current h]
      simp only [List.mem_cons]
      constructor
      · rintro ⟨hm, hr⟩
        refine ⟨hm, ?_⟩
        rintro (rfl | hh)
        · exact hq hm
        · exact hr hh
      · rintro ⟨hm, hr⟩
        exact ⟨hm, fun hh => hr (Or.inr hh)⟩

/-- Membership in the permission set produced by `update_permissions` on a
non-system role: the old set, plus the resolved additions, minus the resolved
removals (both resolved against the permission table restricted to the role's
company). -/
theorem update_permissions_mem (roles : List Role) (perms : List Permission) (r : Role)
    (add rem : List Nat) (hsys : r.is_system_role = false) (hnd : r.permissions.Nodup) :
    ∃ r', (CRUDRole.update_permissions roles perms r (some add) (some rem)).1 = .ok r' ∧
      ∀ p : Permission, p ∈ r'.permissions ↔
        ((p ∈ r.permissions ∨
            p ∈ perms.filter (fun q => add.contains q.id && q.company_id == r.company_id)) ∧
          p ∉ perms.filter (fun q => rem.contains q.id && q.company_id == r.company_id)) := by
  unfold CRUDRole.update_permissions
  rw [if_neg (by simp [hsys])]
  refine ⟨_, rfl, ?_⟩
  intro p
  cases add with
  | nil =>
    cases rem with
    | nil =>
      simp [py_truthy_list, detach_present, attach_new]
    | cons b rs =>
      simp only [py_truthy_list, List.isEmpty_nil, List.isEmpty_cons, Bool.not_true,
        Bool.not_false, Bool.false_eq_true, if_false, if_true, Option.getD_some]
      rw [detach_present_mem _ _ hnd]
      simp
  | cons a as =>
    cases rem with
    | nil =>
      simp only [py_truthy_list, List.isEmpty_nil, List.isEmpty_cons, Bool.not_true,
        Bool.not_false, Bool.false_eq_true, if_false, if_true, Option.getD_some]
      rw [attach_new_mem]
      simp
    | cons b rs =>
      simp only [py_truthy_list, List.isEmpty_cons, Bool.not_false, if_true, Option.getD_some]
      rw [detach_present_mem _ _ (attach_new_nodup _ _ hnd), attach_new_mem]

/-- Claim C6 (confirmed).  On a non-system role, `update_permissions` commits
successfully; an add-list id whose permission does not exist or belongs to a
different company is never attached; a remove-list id whose permission is not
currently attached leaves that id unattached (a no-op for it); and every id
resolving to a same-company permission is applied — added when only in the
add list, absent when in the remove list. -/
theorem update_permissions_valid_and_invalid_ids (roles : List Role) (perms : List Permission)
    (r : Role) (add rem : List Nat) (hsys : r.is_system_role = false)
    (hnd : r.permissions.Nodup) :
    ∃ r', (CRUDRole.update_permissions roles perms r (some add) (some rem)).1 = .ok r' ∧
      (∀ p : Permission, p ∉ r.permissions → (p ∉ perms ∨ p.company_id ≠ r.company_id) →
        p ∉ r'.permissions) ∧
      (∀ p : Permission, p ∉ r.permissions → p.id ∈ rem → p ∉ r'.permissions) ∧
      (∀ p : Permission, p ∈ perms → p.company_id = r.company_id → p.id ∈ add → p.id ∉ rem →
        p ∈ r'.permissions) ∧
      (∀ p : Permission, p ∈ perms → p.company_id = r.company_id → p.id ∈ rem →
        p ∉ r'.permissions) := by
  obtain ⟨r', hok, hmem⟩ := update_permissions_mem roles perms r add rem hsys hnd
  refine ⟨r', hok, ?_, ?_, ?_, ?_⟩
  · intro p hold hbad hc
    rcases (hmem p).mp hc with ⟨h1 | h1, _⟩
    · exact hold h1
    · rcases List.mem_filter.mp h1 with ⟨hp, hf⟩
      rcases hbad with hb | hb
      · exact hb hp
      · exact hb (by simpa using (Bool.and_elim_right hf))
  · intro p hold hrem hc
    rcases (hmem p).mp hc with ⟨h1 | h1, h2⟩
    · exact hold h1
    · rcases List.mem_filter.mp h1 with ⟨hp, hf⟩
      have hcomp : p.company_id = r.company_id := by simpa using (Bool.and_elim_right hf)
      exact h2 (List.mem_filter.mpr ⟨hp, by simp [hcomp, hrem]⟩)
  · intro p hp hcomp hadd hrem
    refine (hmem p).mpr ⟨Or.inr (List.mem_filter.mpr ⟨hp, by simp [hcomp, hadd]⟩), ?_⟩
    intro hc
    rcases List.mem_filter.mp hc with ⟨_, hf⟩
    exact hrem (by simpa using (Bool.and_elim_left hf))
  · intro p hp hcomp hrem hc
    rcases (hmem p).mp hc with ⟨_, h2⟩
    exact h2 (List.mem_filter.mpr ⟨hp, by simp [hcomp, hrem]⟩)

/-- A concrete non-system role attached to one permission of company 3. -/
def sampleEditableRole : Role :=
  { id := 9, name := "editors", description := none, is_system_role := false,
    permissions := [{ id := 21, code := "users_read", name := "View Users",
                      module := "users", description := none, company_id := 3 }],
    company_id := 3 }

/-- A permission of a different company (4), used to exercise the
cross-company add case. -/
def foreignPermission : Permission :=
  { id := 50, code := "roles_read", name := "View Roles", module := "roles",
    description := none, company_id := 4 }

/-- Witness for claim C6 at a concrete role, table and id lists. -/
theorem update_permissions_valid_and_invalid_ids_witness :
    ∃ r', (CRUDRole.update_permissions [sampleEditableRole] [foreignPermission]
        sampleEditableRole (some [50]) (some [99])).1 = .ok r' ∧
      foreignPermission ∉ r'.permissions := by
  obtain ⟨r', hok, hinv, _, _, _⟩ := update_permissions_valid_and_invalid_ids
    [sampleEditableRole] [foreignPermission] sampleEditableRole [50] [99]
    (by decide) (by decide)
  exact ⟨r', hok, hinv foreignPermission (by decide) (Or.inr (by decide))⟩

/-- Python truthiness of an optional string: `None` and the empty string are
falsy. -/
def py_truthy_str : Option String → Bool
  | none => false
  | some s => !s.isEmpty

/-- A row of the shared-schema `company` table (`app/models/company.py`). -/
structure Company where
  id : Nat
  name : String
  slug : String
  schema_name : String
  display_name : Option String
  description : Option String
  logo_url : Option String
  contact_name : Option String
  email : Option String
  phone : Option String
  address : Option String
  tax_id : Option String
  registration_number : Option String
  is_active : Bool
deriving DecidableEq, Repr

/-- The `CompanyUpdate` schema (`app/schemas/company.py`): `schema_name` and
`slug` are structurally absent from the update contract; every field is
optional, `none` meaning "not supplied". -/
structure CompanyUpdate where
  name : Option String
  display_name : Option String
  description : Option String
  logo_url : Option String
  contact_name : Option String
  email : Option String
  phone : Option String
  address : Option String
  tax_id : Option String
  registration_number : Option String
  is_active : Option Bool
deriving DecidableEq, Repr

/-- A plain-dict payload, the other arm of
`obj_in: Union[CompanyUpdate, Dict[str, Any]]` in `CRUDCompany.update`: the
company columns a caller can place in the dict (`none` = key absent), which —
unlike the schema — can carry `slug` and `schema_name` keys. -/
structure CompanyUpdateDict where
  name : Option String
  slug : Option String
  schema_name : Option String
  display_name : Option String
  description : Option String
  logo_url : Option String
  contact_name : Option String
  email : Option String
  phone : Option String
  address : Option String
  tax_id : Option String
  registration_number : Option String
  is_active : Option Bool
deriving DecidableEq, Repr

/-- The two accepted payload shapes of `CRUDCompany.update`. -/
inductive CompanyUpdateInput
  | fromSchema (u : CompanyUpdate)
  | fromDict (d : CompanyUpdateDict)
deriving DecidableEq, Repr

/-- The `update_data` dict built at the top of `CRUDCompany.update`: the dict
itself, or `obj_in.dict(exclude_unset=True)` — which can never contain `slug`
or `schema_name`, the schema has no such fields. -/
def company_update_data : CompanyUpdateInput → CompanyUpdateDict
  | .fromDict d => d
  | .fromSchema u =>
    { name := u.name, slug := none, schema_name := none, display_name := u.display_name,
      description := u.description, logo_url := u.logo_url, contact_name := u.contact_name,
      email := u.email, phone := u.phone, address := u.address, tax_id := u.tax_id,
      registration_number := u.registration_number, is_active := u.is_active }

/-- A present update entry replaces the stored optional column, an absent one
leaves it. -/
def apply_field {α : Type} : Option α → Option α → Option α
  | some v, _ => some v
  | none, cur => cur

/-- Modelled from the spec: the generic `CRUDBase.update` (`app/crud/base.py`
is missing from the source tree; §4.7: "apply only the fields present in
payload, commit, return the refreshed row"), specialised to the company
table. -/
def crud_base_update_company (companies : List Company) (db_obj : Company)
    (d : CompanyUpdateDict) : List Company × Company :=
  let c' : Company :=
    { db_obj with
      name := d.name.getD db_obj.name,
      slug := d.slug.getD db_obj.slug,
      schema_name := d.schema_name.getD db_obj.schema_name,
      display_name := apply_field d.display_name db_obj.display_name,
      description := apply_field d.description db_obj.description,
      logo_url := apply_field d.logo_url db_obj.logo_url,
      contact_name := apply_field d.contact_name db_obj.contact_name,
      email := apply_field d.email db_obj.email,
      phone := apply_field d.phone db_obj.phone,
      address := apply_field d.address db_obj.address,
      tax_id := apply_field d.tax_id db_obj.tax_id,
      registration_number := apply_field d.registration_number db_obj.registration_number,
      is_active := d.is_active.getD db_obj.is_active }
  (companies.map (fun c => if c.id == db_obj.id then c' else c), c')

/-- `CRUDCompany.update` from `app/crud/company.py`: builds `update_data`,
re-slugifies a truthy `slug` entry, deletes any `schema_name` entry, then
delegates to the generic update.  `slugifyFn` is the opaque external
`slugify`. -/
def CRUDCompany.update (slugifyFn : String → String) (companies : List Company)
    (db_obj : Company) (obj_in : CompanyUpdateInput) : List Company × Company :=
  let ud := company_update_data obj_in
  let ud1 :=
    if py_truthy_str ud.slug then { ud with slug := some (slugifyFn (ud.slug.getD "")) }
    else ud
  let ud2 := { ud1 with schema_name := none }
  crud_base_update_company companies db_obj ud2

/-- Claim C7 (confirmed).  After `CRUDCompany.update`, the stored
`schema_name` equals its value before the update regardless of any
`schema_name` the caller put in the payload (the schema cannot even carry the
field; the dict path deletes it), while every other supplied field is applied
(a truthy dict `slug` after slugification). -/
theorem company_update_preserves_schema_name (slugifyFn : String → String)
    (companies : List Company) (c : Company) (obj_in : CompanyUpdateInput) :
    (CRUDCompany.update slugifyFn companies c obj_in).2.schema_name = c.schema_name ∧
    (∀ v, (company_update_data obj_in).name = some v →
      (CRUDCompany.update slugifyFn companies c obj_in).2.name = v) ∧
    (∀ v, (company_update_data obj_in).display_name = some v →
      (CRUDCompany.update slugifyFn companies c obj_in).2.display_name = some v) ∧
    (∀ v, (company_update_data obj_in).description = some v →
      (CRUDCompany.update slugifyFn companies c obj_in).2.description = some v) ∧
    (∀ v, (company_update_data obj_in).logo_url = some v →
      (CRUDCompany.update slugifyFn companies c obj_in).2.logo_url = some v) ∧
    (∀ v, (company_update_data obj_in).contact_name = some v →
      (CRUDCompany.update slugifyFn companies c obj_in).2.contact_name = some v) ∧
    (∀ v, (company_update_data obj_in).email = some v →
      (CRUDCompany.update slugifyFn companies c obj_in).2.email = some v) ∧
    (∀ v, (company_update_data obj_in).phone = some v →
      (CRUDCompany.update slugifyFn companies c obj_in).2.phone = some v) ∧
    (∀ v, (company_update_data obj_in).address = some v →
      (CRUDCompany.update slugifyFn companies c obj_in).2.address = some v) ∧
    (∀ v, (company_update_data obj_in).tax_id = some v →
      (CRUDCompany.update slugifyFn companies c obj_in).2.tax_id = some v) ∧
    (∀ v, (company_update_data obj_in).registration_number = some v →
      (CRUDCompany.update slugifyFn companies c obj_in).2.registration_number = some v) ∧
    (∀ b, (company_update_data obj_in).is_active = some b →
      (CRUDCompany.update slugifyFn companies c obj_in).2.is_active = b) ∧
    (∀ v, (company_update_data obj_in).slug = some v → v ≠ "" →
      (CRUDCompany.update slugifyFn companies c obj_in).2.slug = slugifyFn v) := by
  refine ⟨?_, ?_, ?_, ?_, ?_, ?_, ?_, ?_, ?_, ?_, ?_, ?_, ?_⟩
  · simp [CRUDCompany.update, crud_base_update_company]
  · intro v hv
    by_cases hs : py_truthy_str (company_update_data obj_in).slug = true <;>
      simp [CRUDCompany.update, crud_base_update_company, hv, hs, apply_field]
  · intro v hv
    by_cases hs : py_truthy_str (company_update_data obj_in).slug = true <;>
      simp [CRUDCompany.update, crud_base_update_company, hv, hs, apply_field]
  · intro v hv
    by_cases hs : py_truthy_str (company_update_data obj_in).slug = true <;>
      simp [CRUDCompany.update, crud_base_update_company, hv, hs, apply_field]
  · intro v hv
    by_cases hs : py_truthy_str (company_update_data obj_in).slug = true <;>
      simp [CRUDCompany.update, crud_base_update_company, hv, hs, apply_field]
  · intro v hv
    by_cases hs : py_truthy_str (company_update_data obj_in).slug = true <;>
      simp [CRUDCompany.update, crud_base_update_company, hv, hs, apply_field]
  · intro v hv
    by_cases hs : py_truthy_str (company_update_data obj_in).slug = true <;>
      simp [CRUDCompany.update, crud_base_update_company, hv, hs, apply_field]
  · intro v hv
    by_cases hs : py_truthy_str (company_update_data obj_in).slug = true <;>
      simp [CRUDCompany.update, crud_base_update_company, hv, hs, apply_field]
  · intro v hv
    by_cases hs : py_truthy_str (company_update_data obj_in).slug = true <;>
      simp [CRUDCompany.update, crud_base_update_company, hv, hs, apply_field]
  · intro v hv
    by_cases hs : py_truthy_str (company_update_data obj_in).slug = true <;>
      simp [CRUDCompany.update, crud_base_update_company, hv, hs, apply_field]
  · intro v hv
    by_cases hs : py_truthy_str (company_update_data obj_in).slug = true <;>
      simp [CRUDCompany.update, crud_base_update_company, hv, hs, apply_field]
  · intro b hb
    by_cases hs : py_truthy_str (company_update_data obj_in).slug = true <;>
      simp [CRUDCompany.update, crud_base_update_company, hb, hs]
  · intro v hv hne
    have hsv : py_truthy_str (some v) = true := by
      cases hemp : v.isEmpty with
      | true => exact absurd ((String.isEmpty_iff v).mp hemp) hne
      | false => simp [py_truthy_str, hemp]
    simp [CRUDCompany.update, crud_base_update_company, hv, hsv]

/-- Witness for claim C7: a dict payload that tries to overwrite
`schema_name` is ignored while its `name` entry is applied. -/
theorem company_update_preserves_schema_name_witness :
    (CRUDCompany.update id []
        { id := 1, name := "Acme", slug := "acme", schema_name := "company_acme",
          display_name := none, description := none, logo_url := none, contact_name := none,
          email := none, phone := none, address := none, tax_id := none,
          registration_number := none, is_active := true }
        (.fromDict
          { name := some "Acme2", slug := none, schema_name := some "evil", display_name := none,
            description := none, logo_url := none, contact_name := none, email := none,
            phone := none, address := none, tax_id := none, registration_number := none,
            is_active := none })).2.schema_name = "company_acme" ∧
    (CRUDCompany.update id []
        { id := 1, name := "Acme", slug := "acme", schema_name := "company_acme",
          display_name := none, description := none, logo_url := none, contact_name := none,
          email := none, phone := none, address := none, tax_id := none,
          registration_number := none, is_active := true }
        (.fromDict
          { name := some "Acme2", slug := none, schema_name := some "evil", display_name := none,
            description := none, logo_url := none, contact_name := none, email := none,
            phone := none, address := none, tax_id := none, registration_number := none,
            is_active := none })).2.name = "Acme2" := by
  have h := company_update_preserves_schema_name id []
    { id := 1, name := "Acme", slug := "acme", schema_name := "company_acme",
      display_name := none, description := none, logo_url := none, contact_name := none,
      email := none, phone := none, address := none, tax_id := none,
      registration_number := none, is_active := true }
    (.fromDict
      { name := some "Acme2", slug := none, schema_name := some "evil", display_name := none,
        description := none, logo_url := none, contact_name := none, email := none,
        phone := none, address := none, tax_id := none, registration_number := none,
        is_active := none })
  exact ⟨h.1, h.2.1 "Acme2" rfl⟩

/-- The `PermissionCreate` schema (`app/schemas/role.py`). -/
structure PermissionCreate where
  code : String
  name : String
  module : String
  description : Option String
deriving DecidableEq, Repr

/-- `CRUDPermission.get_by_code` from `app/crud/permission.py`: the first
permission of the company carrying the code. -/
def get_by_code (perms : List Permission) (code : String) (company_id : Nat) :
    Option Permission :=
  perms.find? (fun p => p.code == code && p.company_id == company_id)

/-- The error the database driver raises at commit when the
`(code, company_id)` unique constraint declared on the permission table
(`app/models/user.py`, `unique_permission_code_per_company`) is violated. -/
inductive DbError
  | integrityError
deriving DecidableEq, Repr

/-- The batch-construction loop of `create_multi`.  The session is built with
`autoflush=False` (`app/db/session.py`), so every `get_by_code` lookup sees
only the committed table `db`, never rows added earlier in the same batch.
Fresh rows get consecutive identifiers starting at `n` (random UUIDs in the
source). -/
def build_created (db : List Permission) (company_id : Nat) :
    List PermissionCreate → Nat → List Permission
  | [], _ => []
  | req :: rest, n =>
    match get_by_code db req.code company_id with
    | some _ => build_created db company_id rest n
    | none =>
      { id := n, code := req.code, name := req.name, module := req.module,
        description := req.description, company_id := company_id } ::
        build_created db company_id rest (n + 1)

/-- The condition under which inserting `created` into the committed table
`db` satisfies the permission table's `(code, company_id)` unique constraint,
so the single `db.commit()` succeeds. -/
def insert_conflict_free (db created : List Permission) : Prop :=
  (created.map (fun p => (p.code, p.company_id))).Nodup ∧
    ∀ p ∈ created, ∀ q ∈ db, ¬(q.code = p.code ∧ q.company_id = p.company_id)

instance (db created : List Permission) : Decidable (insert_conflict_free db created) := by
  unfold insert_conflict_free
  infer_instance

/-- `CRUDPermission.create_multi` from `app/crud/permission.py`: skip each
request whose code already exists for the company, add the rest to the
session, commit once — the commit enforcing the declared unique constraint —
and return the new table together with only the newly created rows. -/
def create_multi (db : List Permission) (permissions : List PermissionCreate)
    (company_id : Nat) (freshId : Nat) : Except DbError (List Permission × List Permission) :=
  let created := build_created db company_id permissions freshId
  if insert_conflict_free db created then .ok (db ++ created, created)
  else .error .integrityError

/-- One module's record inside `PermissionRegistry._module_permissions`
(`app/core/permissions.py`): the action-to-code map and the code-to-text
description map, as insertion-ordered association lists. -/
structure ModuleEntry where
  module : String
  permissions : List (String × String)
  descriptions : List (String × String)
deriving DecidableEq, Repr

/-- The process-wide permission registry state. -/
abbrev Registry := List ModuleEntry

/-- Python `str.capitalize`: first character uppercased, the rest lowered. -/
def string_capitalize (s : String) : String :=
  match s.data with
  | [] => ""
  | c :: rest => String.mk (c.toUpper :: rest.map Char.toLower)

/-- The synthesized human-readable name of a code:
`" ".join(word.capitalize() for word in code.split("_"))`. -/
def permission_name_from_code (code : String) : String :=
  String.intercalate " " ((code.splitOn "_").map string_capitalize)

/-- `descriptions.get(code)` on the association-list rendering of the dict. -/
def dict_get (descs : List (String × String)) (code : String) : Option String :=
  (descs.find? (fun kv => kv.1 == code)).map (fun kv => kv.2)

/-- `PermissionRegistry.get_permission_definitions`
(`app/core/permissions.py`): flatten every registered module into
`PermissionCreate` requests, synthesizing the name from the code and
defaulting the description to "Allows (action) operations on (module)". -/
def get_permission_definitions (reg : Registry) : List PermissionCreate :=
  reg.flatMap (fun m =>
    m.permissions.map (fun ac =>
      { code := ac.2, name := permission_name_from_code ac.2, module := m.module,
        description := some ((dict_get m.descriptions ac.2).getD
          ("Allows " ++ ac.1 ++ " operations on " ++ m.module)) }))

/-- `POST /permissions/initialize`
(`app/api/v1/endpoints/permissions.py`): run `create_multi` over the registry
definitions for the caller's company and answer with the count of created
rows. -/
def initialize_permissions (reg : Registry) (db : List Permission)
    (company_id freshId : Nat) : Except DbError (List Permission × Nat) :=
  match create_multi db (get_permission_definitions reg) company_id freshId with
  | .ok res => .ok (res.1, res.2.length)
  | .error e => .error e

/-- A registry-style creation request. -/
def usersReadReq : PermissionCreate :=
  { code := "users_read", name := "Users Read", module := "users", description := none }

/-- Claim C8, counterexample.  On a list that repeats a fresh code, the claim
says create_multi inserts every listed permission whose code is not already
present and commits once; instead both copies are added (the duplicate check
consults only committed rows because autoflush is off) and the single commit
violates the (code, company_id) unique constraint, raising IntegrityError and
inserting nothing. -/
theorem create_multi_duplicate_codes_integrity_error :
    create_multi [] [usersReadReq, usersReadReq] 3 0 = .error .integrityError := by
  unfold create_multi
  rw [if_neg (by decide)]

theorem build_created_codes (db : List Permission) (cid : Nat) :
    ∀ (reqs : List PermissionCreate) (n : Nat),
      (build_created db cid reqs n).map (fun p => p.code) =
        (reqs.filter (fun r => (get_by_code db r.code cid).isNone)).map (fun r => r.code) := by
  intro reqs
  induction reqs with
  | nil => intro n; simp [build_created]
  | cons req rest ih =>
    intro n
    cases hg : get_by_code db req.code cid with
    | some p => simp [build_created, hg, ih]
    | none => simp [build_created, hg, ih]

theorem build_created_company (db : List Permission) (cid : Nat) :
    ∀ (reqs : List PermissionCreate) (n : Nat) (p : Permission),
      p ∈ build_created db cid reqs n → p.company_id = cid := by
  intro reqs
  induction reqs with
  | nil => intro n p hp; simp [build_created] at hp
  | cons req rest ih =>
    intro n p hp
    cases hg : get_by_code db req.code cid with
    | some q =>
      rw [build_created, hg] at hp
      exact ih n p hp
    | none =>
      rw [build_created, hg] at hp
      rcases List.mem_cons.mp hp with h | h
      · rw [h]
      · exact ih (n + 1) p h

theorem build_created_fresh (db : List Permission) (cid : Nat) :
    ∀ (reqs : List PermissionCreate) (n : Nat) (p : Permission),
      p ∈ build_created db cid reqs n → get_by_code db p.code cid = none := by
  intro reqs
  induction reqs with
  | nil => intro n p hp; simp [build_created] at hp
  | cons req rest ih =>
    intro n p hp
    cases hg : get_by_code db req.code cid with
    | some q =>
      rw [build_created, hg] at hp
      exact ih n p hp
    | none =>
      rw [build_created, hg] at hp
      rcases List.mem_cons.mp hp with h | h
      · rw [h]
        exact hg
      · exact ih (n + 1) p h

/-- Claim C8, amended.  Provided the requested codes are pairwise distinct
(which the registry's module-prefixed codes satisfy), `create_multi` commits
once, appends exactly the requests whose code is not already present for the
company — every created row carrying that company and none of them already
stored — and returns only those rows; consequently `POST /initialize` answers
with the number of registry definitions whose code was not yet present.  A
list repeating a fresh code instead fails the whole commit with
IntegrityError (see the counterexample). -/
theorem create_multi_and_initialize_spec (db : List Permission)
    (reqs : List PermissionCreate) (reg : Registry) (company_id freshId : Nat)
    (hcodes : (reqs.map (fun r => r.code)).Nodup)
    (hregcodes : ((get_permission_definitions reg).map (fun r => r.code)).Nodup) :
    (∃ created, create_multi db reqs company_id freshId = .ok (db ++ created, created) ∧
      created.map (fun p => p.code) =
        (reqs.filter (fun r => (get_by_code db r.code company_id).isNone)).map
          (fun r => r.code) ∧
      (∀ p ∈ created, p.company_id = company_id) ∧
      (∀ p ∈ created, p ∉ db)) ∧
    (∃ db2, initialize_permissions reg db company_id freshId =
      .ok (db2,
        ((get_permission_definitions reg).filter
          (fun r => (get_by_code db r.code company_id).isNone)).length)) := by
  have main : ∀ (rs : List PermissionCreate), (rs.map (fun r => r.code)).Nodup →
      ∃ created, create_multi db rs company_id freshId = .ok (db ++ created, created) ∧
        created.map (fun p => p.code) =
          (rs.filter (fun r => (get_by_code db r.code company_id).isNone)).map
            (fun r => r.code) ∧
        (∀ p ∈ created, p.company_id = company_id) ∧
        (∀ p ∈ created, p ∉ db) := by
    intro rs hnd
    have hcomp := build_created_company db company_id rs freshId
    have hfresh := build_created_fresh db company_id rs freshId
    have hcodesEq := build_created_codes db company_id rs freshId
    have hcodesNd :
        ((build_created db company_id rs freshId).map (fun p => p.code)).Nodup := by
      rw [hcodesEq]
      refine hnd.sublist ?_
      exact List.Sublist.map (fun r => r.code) (List.filter_sublist rs)
    have hpairsNd :
        ((build_created db company_id rs freshId).map
          (fun p => (p.code, p.company_id))).Nodup := by
      refine List.Nodup.of_map Prod.fst ?_
      rw [List.map_map]
      exact hcodesNd
    have hdisj : ∀ p ∈ build_created db company_id rs freshId, ∀ q ∈ db,
        ¬(q.code = p.code ∧ q.company_id = p.company_id) := by
      intro p hp q hq hbad
      have h1 := hfresh p hp
      rw [get_by_code, List.find?_eq_none] at h1
      apply h1 q hq
      simp only [Bool.and_eq_true, beq_iff_eq]
      exact ⟨hbad.1, by rw [hbad.2, hcomp p hp]⟩
    refine ⟨build_created db company_id rs freshId, ?_, hcodesEq, hcomp, ?_⟩
    · unfold create_multi
      rw [if_pos ⟨hpairsNd, hdisj⟩]
    · intro p hp hpin
      have h1 := hfresh p hp
      rw [get_by_code, List.find?_eq_none] at h1
      apply h1 p hpin
      simp [hcomp p hp]
  refine ⟨main reqs hcodes, ?_⟩
  obtain ⟨created, hok, hmap, -, -⟩ := main (get_permission_definitions reg) hregcodes
  refine ⟨db ++ created, ?_⟩
  have hlen : created.length =
      ((get_permission_definitions reg).filter
        (fun r => (get_by_code db r.code company_id).isNone)).length := by
    have h2 := congrArg List.length hmap
    simpa using h2
  simp only [initialize_permissions, hok, hlen]

/-- The registry state after one module registered two user permissions. -/
def sampleRegistry : Registry :=
  [{ module := "users",
     permissions := [("read", "users_read"), ("create", "users_create")],
     descriptions := [] }]

/-- Witness for the amended C8 theorem at the concrete registry and an empty
table: both codes are created and the endpoint reports a count of 2. -/
theorem create_multi_and_initialize_spec_witness :
    ∃ db2, initialize_permissions sampleRegistry [] 3 0 = .ok (db2, 2) := by
  obtain ⟨-, h2⟩ := create_multi_and_initialize_spec [] [] sampleRegistry 3 0
    (by decide) (by decide)
  obtain ⟨db2, hdb⟩ := h2
  refine ⟨db2, ?_⟩
  rw [hdb]
  have hlen : ((get_permission_definitions sampleRegistry).filter
      (fun r => (get_by_code [] r.code 3).isNone)).length = 2 := by decide
  rw [hlen]

/-- The configuration relevant to the schema scripts (`app/core/config.py`):
the configurable default/shared schema name (default "public"). -/
structure Settings where
  DEFAULT_SCHEMA : String
deriving DecidableEq, Repr

/-- Modelled from the spec: the shared schema of a configuration.  The
glossary defines "Shared schema: the single schema (default name public)
holding cross-tenant registry data", and §4.1 lists the default schema name as
a configured setting — this definition renders that reading, to be compared
with what the cleanup script actually preserves. -/
def spec_shared_schema (cfg : Settings) : String := cfg.DEFAULT_SCHEMA

/-- `get_all_database_schemas` (`app/db/scripts/manage_schemas.py`): every
schema in the database except the system catalog and temp ones. -/
def get_all_database_schemas (raw : List String) : List String :=
  raw.filter (fun s =>
    !(s == "pg_catalog") && !(s == "information_schema") &&
      !(s.startsWith "pg_toast") && !(s.startsWith "pg_temp"))

/-- `cleanup_orphaned_schemas` (`app/db/scripts/manage_schemas.py`): the
orphans are the non-system schemas that are the schema_name of no company
record and are outside the hard-coded preserved list `["public"]`; with
`dry_run` they are only reported, otherwise each is dropped cascading.
Returns (dropped, reported). -/
def cleanup_orphaned_schemas (raw : List String) (companies : List Company)
    (dry_run : Bool) : List String × List String :=
  let all_schemas := get_all_database_schemas raw
  let company_schemas := companies.map (fun c => c.schema_name)
  let preserved_schemas := ["public"]
  let orphaned_schemas := all_schemas.filter
    (fun s => !(company_schemas.contains s) && !(preserved_schemas.contains s))
  if dry_run then ([], orphaned_schemas)
  else (orphaned_schemas, orphaned_schemas)

/-- Claim C9, counterexample.  Under a configuration whose shared schema is
named "shared" rather than "public", a cleanup run over a database holding
that schema (referenced by no company record) drops the shared schema: the
script preserves only the literal name "public", not the configured one. -/
theorem cleanup_drops_configured_shared_schema :
    spec_shared_schema { DEFAULT_SCHEMA := "shared" } ∈
      (cleanup_orphaned_schemas ["public", "shared"] [] false).1 := by
  decide

/-- Claim C9, amended.  `--cleanup` drops (or with `--dry-run` merely
reports) exactly the non-system schemas that are the schema_name of no
company record and are not the literal schema "public"; the preserved set is
hard-coded to `["public"]` independent of the configured shared-schema name,
so the literal "public" is never dropped, while a shared schema configured
under any other name is not specially preserved. -/
theorem cleanup_orphans_characterization (raw : List String) (companies : List Company) :
    (∀ s, s ∈ (cleanup_orphaned_schemas raw companies false).1 ↔
      (s ∈ raw ∧ s ≠ "pg_catalog" ∧ s ≠ "information_schema" ∧
        ¬s.startsWith "pg_toast" ∧ ¬s.startsWith "pg_temp" ∧
        s ∉ companies.map (fun c => c.schema_name) ∧ s ≠ "public")) ∧
    "public" ∉ (cleanup_orphaned_schemas raw companies false).1 ∧
    (cleanup_orphaned_schemas raw companies true).1 = [] ∧
    (cleanup_orphaned_schemas raw companies true).2 =
      (cleanup_orphaned_schemas raw companies false).1 := by
  have hshape : (cleanup_orphaned_schemas raw companies false).1 =
      (get_all_database_schemas raw).filter
        (fun s => !((companies.map (fun c => c.schema_name)).contains s) &&
          !((["public"] : List String).contains s)) := rfl
  have hmem : ∀ s, s ∈ (cleanup_orphaned_schemas raw companies false).1 ↔
      (s ∈ raw ∧ s ≠ "pg_catalog" ∧ s ≠ "information_schema" ∧
        ¬s.startsWith "pg_toast" ∧ ¬s.startsWith "pg_temp" ∧
        s ∉ companies.map (fun c => c.schema_name) ∧ s ≠ "public") := by
    intro s
    rw [hshape, List.mem_filter, get_all_database_schemas, List.mem_filter]
    simp [and_assoc]
  refine ⟨hmem, ?_, rfl, rfl⟩
  intro h
  exact ((hmem "public").mp h).2.2.2.2.2.2 rfl

/-- One tenant schema's contents: a tenant table is `none` until created
(`CREATE TABLE IF NOT EXISTS ... LIKE public... INCLUDING ALL` creates it
empty), then `some rows`.  User rows are tracked by id, role rows by name,
permission rows by code, association rows by the id pair. -/
structure TenantSchemaState where
  user_table : Option (List Nat)
  role_table : Option (List String)
  permission_table : Option (List String)
  role_permissions_table : Option (List (Nat × Nat))
deriving DecidableEq, Repr

/-- The tenant side of the database cluster: the tenant schemas by name. -/
abbrev Cluster := List (String × TenantSchemaState)

/-- A freshly created, still table-less schema. -/
def emptySchema : TenantSchemaState :=
  { user_table := none, role_table := none, permission_table := none,
    role_permissions_table := none }

/-- The provisioning calls a company-creation run can issue. -/
inductive ProvisionOp
  | createSchema (name : String)
  | createTables (name : String)
  | seedDefaults (name : String)
deriving DecidableEq, Repr

/-- `create_schema` (`app/db/session.py`): `CREATE SCHEMA IF NOT EXISTS` —
adds a new empty schema unless one of that name already exists. -/
def create_schema (cl : Cluster) (schema_name : String) : Cluster :=
  if cl.any (fun e => e.1 == schema_name) then cl
  else cl ++ [(schema_name, emptySchema)]

/-- `create_company_schema_tables` (`app/db/session.py`): with the search
path on the target schema, create the four tenant tables — `user`, `role`,
`permission`, `role_permissions` — if absent, each laid out like its
public-schema template and holding no rows.  The function explicitly performs
no role or permission seeding ("No roles and permissions as requested"). -/
def create_company_schema_tables (cl : Cluster) (schema_name : String) : Cluster :=
  cl.map (fun e =>
    if e.1 == schema_name then
      (e.1,
        { user_table := some (e.2.user_table.getD []),
          role_table := some (e.2.role_table.getD []),
          permission_table := some (e.2.permission_table.getD []),
          role_permissions_table := some (e.2.role_permissions_table.getD []) })
    else e)

/-- `ON CONFLICT DO NOTHING` insertion of a uniquely-keyed row. -/
def insert_unique (rows : List String) (v : String) : List String :=
  if rows.contains v then rows else rows ++ [v]

/-- `create_default_roles_and_permissions` (`app/db/session.py`): for the
company matching the schema name (no-op when the lookup fails), insert the
ADMIN and STAFF system roles and the four baseline users_* permission codes,
each with `ON CONFLICT DO NOTHING`.  Defined here to show company creation
never invokes it. -/
def create_default_roles_and_permissions (cl : Cluster) (companies : List Company)
    (schema_name : String) : Cluster :=
  if (companies.find? (fun c => c.schema_name == schema_name)).isNone then cl
  else
    cl.map (fun e =>
      if e.1 == schema_name then
        (e.1,
          { e.2 with
            role_table := some (insert_unique (insert_unique (e.2.role_table.getD []) "ADMIN")
              "STAFF"),
            permission_table := some
              (["users_read", "users_create", "users_update", "users_delete"].foldl
                insert_unique (e.2.permission_table.getD [])) })
      else e)

/-- The `CompanyCreate` schema (`app/schemas/company.py`): only `name` is
required; `is_active` defaults to true. -/
structure CompanyCreate where
  name : String
  slug : Option String
  schema_name : Option String
  display_name : Option String
  description : Option String
  logo_url : Option String
  contact_name : Option String
  email : Option String
  phone : Option String
  address : Option String
  tax_id : Option String
  registration_number : Option String
  is_active : Bool
deriving DecidableEq, Repr

/-- `CRUDCompany.create` (`app/crud/company.py`): derive the slug (slugified
name when the supplied slug is not truthy) and the schema name
(`company_` ++ slug when not supplied), insert and commit the registry row,
then provision — `create_schema` followed by `create_company_schema_tables`
(failures merely logged) — and never call
`create_default_roles_and_permissions`.  Returns the new registry, the new
cluster, the created row, and the provisioning operations issued. -/
def CRUDCompany.create (slugifyFn : String → String) (companies : List Company)
    (cl : Cluster) (obj_in : CompanyCreate) (newId : Nat) :
    List Company × Cluster × Company × List ProvisionOp :=
  let slug := if py_truthy_str obj_in.slug then obj_in.slug.getD "" else slugifyFn obj_in.name
  let schema_name :=
    if py_truthy_str obj_in.schema_name then obj_in.schema_name.getD ""
    else "company_" ++ slug
  let db_obj : Company :=
    { id := newId, name := obj_in.name, slug := slug, schema_name := schema_name,
      display_name := obj_in.display_name, description := obj_in.description,
      logo_url := obj_in.logo_url, contact_name := obj_in.contact_name,
      email := obj_in.email, phone := obj_in.phone, address := obj_in.address,
      tax_id := obj_in.tax_id, registration_number := obj_in.registration_number,
      is_active := obj_in.is_active }
  let cl1 := create_schema cl schema_name
  let cl2 := create_company_schema_tables cl1 schema_name
  (companies ++ [db_obj], cl2, db_obj,
    [ProvisionOp.createSchema schema_name, ProvisionOp.createTables schema_name])

/-- Provisioning a fresh schema name yields that schema with its four tables
created and its role and permission tables empty. -/
theorem provision_fresh_schema (cl : Cluster) (sn : String)
    (hfresh : ∀ e ∈ cl, e.1 ≠ sn) :
    (create_company_schema_tables (create_schema cl sn) sn).find? (fun e => e.1 == sn) =
      some (sn,
        { user_table := some [], role_table := some [], permission_table := some [],
          role_permissions_table := some [] }) := by
  have hany : cl.any (fun e => e.1 == sn) = false := by
    rw [List.any_eq_false]
    intro e he
    simpa using hfresh e he
  unfold create_schema
  rw [hany]
  simp only [Bool.false_eq_true, if_false]
  unfold create_company_schema_tables
  rw [List.map_append, List.find?_append]
  have hnone : ((cl.map (fun e =>
      if e.1 == sn then
        (e.1,
          { user_table := some (e.2.user_table.getD []),
            role_table := some (e.2.role_table.getD []),
            permission_table := some (e.2.permission_table.getD []),
            role_permissions_table := some (e.2.role_permissions_table.getD [])
            : TenantSchemaState })
      else e)).find? (fun e => e.1 == sn)) = none := by
    rw [List.find?_eq_none]
    intro x hx
    obtain ⟨e, he, hxe⟩ := List.mem_map.mp hx
    have hne : (e.1 == sn) = false := by simpa using hfresh e he
    rw [if_neg (by simp [hne])] at hxe
    subst hxe
    simp [hne]
  rw [hnone]
  simp [emptySchema]

/-- Claim C10 (confirmed).  A company creation through the CRUD layer whose
derived schema name is not already present issues exactly the schema-creation
and table-creation operations — never the default-role-and-permission
seeding — and leaves the new tenant schema with its four tables created and
its role and permission tables empty (no ADMIN/STAFF rows, no users_*
codes). -/
theorem company_create_does_not_seed (slugifyFn : String → String)
    (companies : List Company) (cl : Cluster) (obj_in : CompanyCreate) (newId : Nat)
    (hfresh : ∀ e ∈ cl,
      e.1 ≠ (CRUDCompany.create slugifyFn companies cl obj_in newId).2.2.1.schema_name) :
    (CRUDCompany.create slugifyFn companies cl obj_in newId).2.2.2 =
      [ProvisionOp.createSchema
          (CRUDCompany.create slugifyFn companies cl obj_in newId).2.2.1.schema_name,
        ProvisionOp.createTables
          (CRUDCompany.create slugifyFn companies cl obj_in newId).2.2.1.schema_name] ∧
    (∀ n, ProvisionOp.seedDefaults n ∉
      (CRUDCompany.create slugifyFn companies cl obj_in newId).2.2.2) ∧
    (CRUDCompany.create slugifyFn companies cl obj_in newId).2.1.find?
        (fun e => e.1 ==
          (CRUDCompany.create slugifyFn companies cl obj_in newId).2.2.1.schema_name) =
      some ((CRUDCompany.create slugifyFn companies cl obj_in newId).2.2.1.schema_name,
        { user_table := some [], role_table := some [], permission_table := some [],
          role_permissions_table := some [] }) := by
  refine ⟨rfl, ?_, ?_⟩
  · intro n hmem
    simp [CRUDCompany.create] at hmem
  · exact provision_fresh_schema cl
      (CRUDCompany.create slugifyFn companies cl obj_in newId).2.2.1.schema_name hfresh

/-- Witness for claim C10: creating "Acme" over an empty cluster provisions
schema "company_acme" with empty role and permission tables. -/
theorem company_create_does_not_seed_witness :
    (CRUDCompany.create (fun _ => "acme") [] []
        { name := "Acme", slug := none, schema_name := none, display_name := none,
          description := none, logo_url := none, contact_name := none, email := none,
          phone := none, address := none, tax_id := none, registration_number := none,
          is_active := true } 1).2.1.find?
      (fun e => e.1 ==
        (CRUDCompany.create (fun _ => "acme") [] []
          { name := "Acme", slug := none, schema_name := none, display_name := none,
            description := none, logo_url := none, contact_name := none, email := none,
            phone := none, address := none, tax_id := none, registration_number := none,
            is_active := true } 1).2.2.1.schema_name) =
      some ("company_acme",
        { user_table := some [], role_table := some [], permission_table := some [],
          role_permissions_table := some [] }) := by
  have h := (company_create_does_not_seed (fun _ => "acme") [] []
    { name := "Acme", slug := none, schema_name := none, display_name := none,
      description := none, logo_url := none, contact_name := none, email := none,
      phone := none, address := none, tax_id := none, registration_number := none,
      is_active := true } 1 (by intro e he; simp at he)).2.2
  simpa using h

end VosApi
